import Mathlib

/-!
Shallow embedding of `server.py` of the barcode-scanner-service repository.

Strings of the Python program are modelled as `List Char` (`Str`).  The
external computer-vision and barcode capabilities (cv2, pyzbar) are opaque
to the program, so raster images are modelled as opaque handles (`Image`)
and the library calls as function-valued fields of a `Caps` structure.
The Python standard-library routines the handler relies on for its
control flow — `base64.b64decode` (non-strict mode) and `bytes.decode
('utf-8')` — are modelled concretely, because the handler's error
behaviour depends on exactly when they raise.

Exceptions are modelled with `Except Str`: a propagating exception
carries its message, and the handler's outer `except Exception` clause
turns it into an HTTP 500 response whose `error` field is that message.
-/

/-- Python strings are modelled as lists of characters. -/
abbrev Str := List Char

/-- Opaque handle for a raster image produced by the external cv2 library. -/
abbrev Image := Nat

/-- Value of a base64 alphabet character, `none` for a non-alphabet
character (which non-strict `binascii.a2b_base64` silently skips). -/
def b64Val (c : Char) : Option Nat :=
  if 'A' ≤ c ∧ c ≤ 'Z' then some (c.toNat - 'A'.toNat)
  else if 'a' ≤ c ∧ c ≤ 'z' then some (c.toNat - 'a'.toNat + 26)
  else if '0' ≤ c ∧ c ≤ '9' then some (c.toNat - '0'.toNat + 52)
  else if c = '+' then some 62
  else if c = '/' then some 63
  else none

/-- Message of the `binascii.Error` raised when the number of base64 data
characters is one more than a multiple of four; CPython interpolates
that number, computed as `(bin_len / 3) * 4 + 1` from the output length
at the point of failure. -/
def b64MsgInvalid (n : Nat) : Str :=
  ("Invalid base64-encoded string: number of data characters (").toList
    ++ (toString n).toList
    ++ (") cannot be 1 more than a multiple of 4").toList

/-- Message of the `binascii.Error` raised for residual unpadded data. -/
def b64MsgPad : Str := ("Incorrect padding").toList

/-- Message of the `ValueError` raised by `base64.b64decode` on non-ASCII input. -/
def b64MsgAscii : Str := ("string argument should contain only ASCII characters").toList

/-- Decoding loop of `binascii.a2b_base64` in non-strict mode (the mode
`base64.b64decode(s)` uses): non-alphabet characters are skipped
(leaving the pad count untouched), each data character resets the pad
count to zero and contributes six bits (one output byte materialises at
quad positions 2, 3 and 4), `=` increments the pad count only once two
data characters of the current quad are present and terminates the
decode once the quad is completed by padding; a residual quad at the end
of input raises, with the data-character count interpolated into the
message exactly as CPython computes it. Arguments: input, quad
position, pending bits, pad count, reversed output accumulator. -/
def a2bLoop : List Char → Nat → Nat → Nat → List Nat → Except Str (List Nat)
  | [], quadPos, _, _, out =>
      if quadPos = 0 then Except.ok out.reverse
      else if quadPos = 1 then Except.error (b64MsgInvalid ((out.length / 3) * 4 + 1))
      else Except.error b64MsgPad
  | c :: rest, quadPos, leftchar, pads, out =>
      if c = '=' then
        if 2 ≤ quadPos then
          if 4 ≤ quadPos + pads + 1 then Except.ok out.reverse
          else a2bLoop rest quadPos leftchar (pads + 1) out
        else a2bLoop rest quadPos leftchar pads out
      else
        match b64Val c with
        | none => a2bLoop rest quadPos leftchar pads out
        | some v =>
          let lc := leftchar * 64 + v
          if quadPos = 0 then a2bLoop rest 1 lc 0 out
          else if quadPos = 1 then a2bLoop rest 2 (lc % 16) 0 (lc / 16 :: out)
          else if quadPos = 2 then a2bLoop rest 3 (lc % 4) 0 (lc / 4 :: out)
          else a2bLoop rest 0 0 0 (lc % 256 :: out)

/-- Model of `base64.b64decode(s)` (default non-validating mode): the
string must be ASCII, then the non-strict `a2b_base64` loop runs.
`Except.error` models the raised `binascii.Error`/`ValueError`. -/
def b64decode (s : Str) : Except Str (List Nat) :=
  if s.all (fun c => c.toNat < 128) then a2bLoop s 0 0 0 []
  else Except.error b64MsgAscii

/-- Whether a byte is a UTF-8 continuation byte. -/
def isCont (b : Nat) : Bool := 128 ≤ b && b ≤ 191

/-- Message of the `UnicodeDecodeError` raised by `bytes.decode('utf-8')`. -/
def utf8Msg : Str := ("utf-8 codec cannot decode byte").toList

/-- Model of strict `bytes.decode('utf-8')`: full UTF-8 validation
(continuation-byte ranges, no overlong forms, no surrogates, maximum
U+10FFFF); any invalid sequence raises `UnicodeDecodeError`. -/
def utf8Decode : List Nat → Except Str Str
  | [] => Except.ok []
  | b :: rest =>
    if b ≤ 127 then
      (utf8Decode rest).map (fun cs => Char.ofNat b :: cs)
    else if 194 ≤ b ∧ b ≤ 223 then
      match rest with
      | b1 :: rest1 =>
        if isCont b1 then
          (utf8Decode rest1).map (fun cs => Char.ofNat ((b - 192) * 64 + (b1 - 128)) :: cs)
        else Except.error utf8Msg
      | [] => Except.error utf8Msg
    else if 224 ≤ b ∧ b ≤ 239 then
      match rest with
      | b1 :: b2 :: rest2 =>
        if (if b = 224 then decide (160 ≤ b1 ∧ b1 ≤ 191)
            else if b = 237 then decide (128 ≤ b1 ∧ b1 ≤ 159)
            else isCont b1) && isCont b2 then
          (utf8Decode rest2).map
            (fun cs => Char.ofNat ((b - 224) * 4096 + (b1 - 128) * 64 + (b2 - 128)) :: cs)
        else Except.error utf8Msg
      | _ => Except.error utf8Msg
    else if 240 ≤ b ∧ b ≤ 244 then
      match rest with
      | b1 :: b2 :: b3 :: rest3 =>
        if (if b = 240 then decide (144 ≤ b1 ∧ b1 ≤ 191)
            else if b = 244 then decide (128 ≤ b1 ∧ b1 ≤ 143)
            else isCont b1) && isCont b2 && isCont b3 then
          (utf8Decode rest3).map
            (fun cs => Char.ofNat ((b - 240) * 262144 + (b1 - 128) * 4096 + (b2 - 128) * 64 + (b3 - 128)) :: cs)
        else Except.error utf8Msg
      | _ => Except.error utf8Msg
    else Except.error utf8Msg

/-- Worker for `pySplit`: walks the string accumulating the current
(reversed) segment, emitting it at each separator. -/
def splitAux (sep : Char) : Str → Str → List Str
  | [], cur => [cur.reverse]
  | c :: rest, cur =>
    if c = sep then cur.reverse :: splitAux sep rest []
    else splitAux sep rest (c :: cur)

/-- Model of Python `s.split(sep)` for a single-character separator. -/
def pySplit (sep : Char) (s : Str) : List Str := splitAux sep s []

/-- Interleaving used by Python `s.replace('', repl)`: `repl` before every
character and at the end. -/
def interleave (repl : Str) : Str → Str
  | [] => repl
  | c :: rest => repl ++ c :: interleave repl rest

/-- Whether `pat` is an initial segment of `s`. -/
def startsWithPat : Str → Str → Bool
  | [], _ => true
  | _ :: _, [] => false
  | p :: ps, c :: cs => p = c && startsWithPat ps cs

/-- Fuelled worker for `pyReplace` (fuel bounds the scan position so the
recursion is structural); requires a non-empty pattern. -/
def replaceFuel (pat repl : Str) : Nat → Str → Str
  | _, [] => []
  | 0, s => s
  | fuel + 1, c :: rest =>
    if startsWithPat pat (c :: rest) then
      repl ++ replaceFuel pat repl fuel ((c :: rest).drop pat.length)
    else
      c :: replaceFuel pat repl fuel rest

/-- Model of Python `s.replace(pat, repl)`: all occurrences, scanned left
to right, non-overlapping. -/
def pyReplace (pat repl s : Str) : Str :=
  match pat with
  | [] => interleave repl s
  | _ :: _ => replaceFuel pat repl s.length s

/-- Payload extraction of line 55 of `server.py`:
`data['image'].split(',')[1] if ',' in data['image'] else data['image']`. -/
def extractPayload (s : Str) : Str :=
  if ',' ∈ s then (pySplit ',' s).getD 1 [] else s

/-- A barcode symbol as returned by `pyzbar.decode`: raw payload bytes
(`barcode.data`) and the symbol-family label (`barcode.type`). -/
structure Barcode where
  data : List Nat
  type : Str

/-- Decidable equality for `Except`, needed to evaluate concrete runs of
the pipeline with `decide`. -/
instance {ε α : Type} [DecidableEq ε] [DecidableEq α] : DecidableEq (Except ε α)
  | Except.error a, Except.error b =>
    if h : a = b then isTrue (by rw [h])
    else isFalse (by intro hc; cases hc; exact h rfl)
  | Except.error _, Except.ok _ => isFalse (by intro hc; cases hc)
  | Except.ok _, Except.error _ => isFalse (by intro hc; cases hc)
  | Except.ok a, Except.ok b =>
    if h : a = b then isTrue (by rw [h])
    else isFalse (by intro hc; cases hc; exact h rfl)

/-- External capabilities of the program: cv2 image decoding and
transformations and pyzbar symbol detection.  They are opaque to the
repository's code, so they are parameters of the embedding. -/
structure Caps where
  imdecode : List Nat → Option Image
  cvtColor : Image → Image
  gaussianBlur : Image → Image
  adaptiveThreshold : Image → Image
  filter2D : Image → Image
  pyzbarDecode : Image → List Barcode

/-- The result dictionary built by `decode_barcode`: either
`{'success': False}` or `{'data': ..., 'type': ..., 'success': True}`. -/
inductive ScanResult where
  | failure : ScanResult
  | success (data : Str) (type : Str) : ScanResult
deriving DecidableEq

/-- Response body: a JSON-serialised scan result, a JSON error object
with key `error`, or an empty body (used by the 302 redirect). -/
inductive Body where
  | jsonResult (result : ScanResult) : Body
  | jsonError (error : Str) : Body
  | empty : Body
deriving DecidableEq

/-- An HTTP response of the handler: status code, body, and optional
`Location` header. -/
structure Response where
  status : Nat
  body : Body
  location : Option Str
deriving DecidableEq

/-- Result of one handler run: the HTTP response plus the debug image
files written as a side effect. -/
structure HandlerOutput where
  response : Response
  savedFiles : List Str
deriving DecidableEq

/-- Parsed JSON body of a `/scan` request: the optional `image` field and
the `redirect` flag (`data.get('redirect', False)`). -/
structure ScanBody where
  image : Option Str
  redirect : Bool
deriving DecidableEq

/-- An inbound request: `request.get_json()` result (`none` when the body
is absent or not a JSON object), `request.scheme` and `request.host`. -/
structure Req where
  body : Option ScanBody
  scheme : Str
  host : Str
deriving DecidableEq

/-- The process environment as visible to `os.getenv` at the moment the
handler runs: `REDIRECT_URL` and `IMAGES_LOCATION_COPY`. -/
structure Env where
  redirectURL : Option Str
  imagesLocation : Option Str
deriving DecidableEq

/-- Model of `decode_barcode` (lines 12-31 of `server.py`): ask pyzbar
for symbols; on at least one, decode the first symbol's payload as UTF-8
(which may raise) and report success with its payload and type. -/
def decode_barcode (caps : Caps) (image : Image) : Except Str ScanResult :=
  match caps.pyzbarDecode image with
  | [] => Except.ok ScanResult.failure
  | barcode :: _ =>
    match utf8Decode barcode.data with
    | Except.error e => Except.error e
    | Except.ok barcode_data => Except.ok (ScanResult.success barcode_data barcode.type)

/-- The `images_to_scan` list of lines 87-93: the original image and its
four preprocessed variants, in source order, paired with their labels. -/
def images_to_scan (caps : Caps) (image : Image) : List (Str × Image) :=
  let gray := caps.cvtColor image
  let blurred := caps.gaussianBlur gray
  let adaptive_thresh := caps.adaptiveThreshold blurred
  let sharpened := caps.filter2D gray
  [(("original").toList, image),
   (("gray").toList, gray),
   (("blurred").toList, blurred),
   (("adaptive_thresh").toList, adaptive_thresh),
   (("sharpened").toList, sharpened)]

/-- The decode loop of lines 114-119: starting from `{'success': False}`,
decode each listed variant in order, keeping the last result and
stopping at the first success; a raising decode propagates. -/
def scanLoop (caps : Caps) : ScanResult → List (Str × Image) → Except Str ScanResult
  | result, [] => Except.ok result
  | _, (_, processed_image) :: rest =>
    match decode_barcode caps processed_image with
    | Except.error e => Except.error e
    | Except.ok result =>
      match result with
      | ScanResult.success d t => Except.ok (ScanResult.success d t)
      | ScanResult.failure => scanLoop caps ScanResult.failure rest

/-- Model of `os.path.join(dir, name)` for the two-argument calls the
handler makes. -/
def pathJoin (dir name : Str) : Str :=
  if name.head? = some '/' then name
  else if dir = [] ∨ dir.getLast? = some '/' then dir ++ name
  else dir ++ '/' :: name

/-- Debug file paths written by lines 103-108: for each listed variant,
`scan_<timestamp>_<index>_<label>.jpg` joined to the configured
directory, with the index counting from 1. -/
def debugFilenames (loc ts : Str) (imgs : List (Str × Image)) : List Str :=
  imgs.enum.map (fun p =>
    pathJoin loc
      (("scan_").toList ++ ts ++ ("_").toList ++ (toString (p.1 + 1)).toList
        ++ ("_").toList ++ p.2.1 ++ (".jpg").toList))

/-- The debug-persistence block of lines 95-111: nothing is written when
`IMAGES_LOCATION_COPY` is unset; when it is set, either all five variant
files are written, or a filesystem failure (modelled by `persistFail`)
makes the block write nothing — the raised exception is caught at lines
109-111 and only logged. -/
def debugFiles (env : Env) (ts : Str) (persistFail : Bool) (imgs : List (Str × Image)) :
    List Str :=
  match env.imagesLocation with
  | none => []
  | some loc => if persistFail then [] else debugFilenames loc ts imgs

/-- Error message of line 49. -/
def noImageMsg : Str := ("No image data provided").toList

/-- Error message of line 65. -/
def invalidImageMsg : Str := ("Invalid image data").toList

/-- The `\x7bcode\x7d` placeholder of the redirect template. -/
def codePat : Str := ("\x7bcode\x7d").toList

/-- The `\x7bprotocol\x7d` placeholder of the redirect template. -/
def protocolPat : Str := ("\x7bprotocol\x7d").toList

/-- The `\x7bhost\x7d` placeholder of the redirect template. -/
def hostPat : Str := ("\x7bhost\x7d").toList

/-- Default redirect template of line 123. -/
def defaultRedirectTemplate : Str := ("http://localhost/search/\x7bcode\x7d").toList

/-- Model of the `scan_barcode` handler (lines 38-135 of `server.py`).
Besides the request, it takes the environment visible to `os.getenv`
while the request is handled, the formatted `datetime.now()` timestamp
`ts`, and `persistFail`, true when the filesystem makes the debug
image-saving block raise (that exception is caught at lines 109-111 and
only logged).  Exceptions escaping any other step are caught by the
outer handler (lines 134-135) and rendered as a 500 JSON error. -/
def scan_barcode (caps : Caps) (env : Env) (req : Req) (ts : Str) (persistFail : Bool) :
    HandlerOutput :=
  match req.body with
  | none => ⟨⟨400, Body.jsonError noImageMsg, none⟩, []⟩
  | some data =>
    match data.image with
    | none => ⟨⟨400, Body.jsonError noImageMsg, none⟩, []⟩
    | some imageField =>
      let should_redirect := data.redirect
      let image_data := extractPayload imageField
      match b64decode image_data with
      | Except.error e => ⟨⟨500, Body.jsonError e, none⟩, []⟩
      | Except.ok image_bytes =>
        match caps.imdecode image_bytes with
        | none => ⟨⟨400, Body.jsonError invalidImageMsg, none⟩, []⟩
        | some image =>
          let imgs := images_to_scan caps image
          let savedFiles := debugFiles env ts persistFail imgs
          match scanLoop caps ScanResult.failure (imgs.drop 1) with
          | Except.error e => ⟨⟨500, Body.jsonError e, none⟩, savedFiles⟩
          | Except.ok result =>
            match should_redirect, result with
            | true, ScanResult.success d _ =>
              let redirect_url_template := env.redirectURL.getD defaultRedirectTemplate
              let redirect_url :=
                pyReplace hostPat req.host
                  (pyReplace protocolPat req.scheme
                    (pyReplace codePat d redirect_url_template))
              ⟨⟨302, Body.empty, some redirect_url⟩, savedFiles⟩
            | _, _ => ⟨⟨200, Body.jsonResult result, none⟩, savedFiles⟩

/-- The barcode-scanning outcome as a function of the raw image bytes
alone (lines 59-119 restricted to the decode path): `none` when the
bytes are not a decodable raster, otherwise the scan loop's outcome. -/
def scan_result_of (caps : Caps) (image_bytes : List Nat) : Option (Except Str ScanResult) :=
  (caps.imdecode image_bytes).map
    (fun image => scanLoop caps ScanResult.failure ((images_to_scan caps image).drop 1))

/-- Capability instance for concrete runs: no byte string is a decodable
raster and no image carries a symbol. -/
def idCaps : Caps :=
  { imdecode := fun _ => none
    cvtColor := id
    gaussianBlur := id
    adaptiveThreshold := id
    filter2D := id
    pyzbarDecode := fun _ => [] }

/-- Capability instance for concrete runs: the byte string `[65]` decodes
to an image, and every image carries one CODE128 symbol with payload
byte 66 (the UTF-8 encoding of `B`). -/
def capsDecodeA : Caps :=
  { imdecode := fun bs => if bs = [65] then some 1 else none
    cvtColor := id
    gaussianBlur := id
    adaptiveThreshold := id
    filter2D := id
    pyzbarDecode := fun _ => [⟨[66], ("CODE128").toList⟩] }

/-- Capability instance for concrete runs: every image carries one
CODE128 symbol whose payload byte 255 is not valid UTF-8. -/
def capsBadUtf8 : Caps :=
  { imdecode := fun bs => if bs = [65] then some 1 else none
    cvtColor := id
    gaussianBlur := id
    adaptiveThreshold := id
    filter2D := id
    pyzbarDecode := fun _ => [⟨[255], ("CODE128").toList⟩] }

example : b64decode (("QQ==").toList) = Except.ok [65] := by decide
example : b64decode (("a").toList) = Except.error (b64MsgInvalid 1) := by decide
example : b64decode (("IGNORED").toList) = Except.error b64MsgPad := by decide
example : b64decode (("AA=AAAA=").toList) = Except.error b64MsgPad := by decide
example : b64decode (("AA=AAAA=AA").toList) = Except.ok [0, 0, 0, 0, 0, 0] := by decide
example : b64decode (("AAAAA").toList) = Except.error (b64MsgInvalid 5) := by decide
example : utf8Decode [66] = Except.ok (("B").toList) := by decide
example : utf8Decode [255] = Except.error utf8Msg := by decide
example : extractPayload (("a,b,c").toList) = ("b").toList := by decide
example : pyReplace codePat (("X").toList) defaultRedirectTemplate
    = ("http://localhost/search/X").toList := by decide

example :
    scan_barcode capsDecodeA ⟨none, none⟩
        ⟨some ⟨some (("QQ==").toList), true⟩, ("http").toList, ("h").toList⟩ [] false
      = ⟨⟨302, Body.empty, some (("http://localhost/search/B").toList)⟩, []⟩ := by decide

/-- The client-facing response depends on the environment only through
`REDIRECT_URL`: the timestamp, the debug-persistence outcome and
`IMAGES_LOCATION_COPY` influence only the side-effect part of the run. -/
theorem scan_barcode_response_congr (caps : Caps) (env1 env2 : Env) (req : Req)
    (ts1 ts2 : Str) (pf1 pf2 : Bool) (h : env1.redirectURL = env2.redirectURL) :
    (scan_barcode caps env1 req ts1 pf1).response =
      (scan_barcode caps env2 req ts2 pf2).response := by
  unfold scan_barcode
  split
  · rfl
  split
  · rfl
  dsimp only
  split
  · rfl
  split
  · rfl
  split
  · rfl
  split
  · rw [h]
  · rfl

/-- Reduction lemma: when `base64.b64decode` raises, the outer exception
handler answers 500 with the exception message, and no file is written. -/
theorem scan_barcode_b64_error (caps : Caps) (env : Env) (req : Req) (ts : Str) (pf : Bool)
    (b : ScanBody) (s m : Str) (hbody : req.body = some b) (himg : b.image = some s)
    (hb64 : b64decode (extractPayload s) = Except.error m) :
    scan_barcode caps env req ts pf = ⟨⟨500, Body.jsonError m, none⟩, []⟩ := by
  unfold scan_barcode
  rw [hbody]
  dsimp only
  rw [himg]
  dsimp only
  rw [hb64]

/-- Reduction lemma: when the decoded bytes are not a decodable raster
(`cv2.imdecode` returns `None`), the handler answers 400. -/
theorem scan_barcode_imdecode_none (caps : Caps) (env : Env) (req : Req) (ts : Str) (pf : Bool)
    (b : ScanBody) (s : Str) (bytes : List Nat)
    (hbody : req.body = some b) (himg : b.image = some s)
    (hb64 : b64decode (extractPayload s) = Except.ok bytes)
    (hdec : caps.imdecode bytes = none) :
    scan_barcode caps env req ts pf = ⟨⟨400, Body.jsonError invalidImageMsg, none⟩, []⟩ := by
  unfold scan_barcode
  rw [hbody]
  dsimp only
  rw [himg]
  dsimp only
  rw [hb64]
  dsimp only
  rw [hdec]

/-- Reduction lemma: when the scan loop raises (non-UTF-8 symbol
payload), the handler answers 500 with the exception message; the debug
files were already written before the loop ran. -/
theorem scan_barcode_loop_error (caps : Caps) (env : Env) (req : Req) (ts : Str) (pf : Bool)
    (b : ScanBody) (s m : Str) (bytes : List Nat) (image : Image)
    (hbody : req.body = some b) (himg : b.image = some s)
    (hb64 : b64decode (extractPayload s) = Except.ok bytes)
    (hdec : caps.imdecode bytes = some image)
    (hloop : scanLoop caps ScanResult.failure ((images_to_scan caps image).drop 1) =
      Except.error m) :
    scan_barcode caps env req ts pf =
      ⟨⟨500, Body.jsonError m, none⟩, debugFiles env ts pf (images_to_scan caps image)⟩ := by
  unfold scan_barcode
  rw [hbody]
  dsimp only
  rw [himg]
  dsimp only
  rw [hb64]
  dsimp only
  rw [hdec]
  dsimp only
  rw [hloop]

/-- Reduction lemma: redirect requested and the scan succeeded — the
handler answers 302 with empty body and the substituted template as
`Location`. -/
theorem scan_barcode_redirect_success (caps : Caps) (env : Env) (req : Req) (ts : Str)
    (pf : Bool) (b : ScanBody) (s d t : Str) (bytes : List Nat) (image : Image)
    (hbody : req.body = some b) (himg : b.image = some s) (hred : b.redirect = true)
    (hb64 : b64decode (extractPayload s) = Except.ok bytes)
    (hdec : caps.imdecode bytes = some image)
    (hloop : scanLoop caps ScanResult.failure ((images_to_scan caps image).drop 1) =
      Except.ok (ScanResult.success d t)) :
    scan_barcode caps env req ts pf =
      ⟨⟨302, Body.empty,
          some (pyReplace hostPat req.host
            (pyReplace protocolPat req.scheme
              (pyReplace codePat d (env.redirectURL.getD defaultRedirectTemplate))))⟩,
        debugFiles env ts pf (images_to_scan caps image)⟩ := by
  unfold scan_barcode
  rw [hbody]
  dsimp only
  rw [himg]
  dsimp only
  rw [hb64]
  dsimp only
  rw [hdec]
  dsimp only
  rw [hloop]
  dsimp only
  rw [hred]

/-- Reduction lemma: the scan exhausted all variants without a symbol —
regardless of the redirect flag the handler answers 200 with the
`success: false` JSON body. -/
theorem scan_barcode_ok_failure (caps : Caps) (env : Env) (req : Req) (ts : Str) (pf : Bool)
    (b : ScanBody) (s : Str) (bytes : List Nat) (image : Image)
    (hbody : req.body = some b) (himg : b.image = some s)
    (hb64 : b64decode (extractPayload s) = Except.ok bytes)
    (hdec : caps.imdecode bytes = some image)
    (hloop : scanLoop caps ScanResult.failure ((images_to_scan caps image).drop 1) =
      Except.ok ScanResult.failure) :
    scan_barcode caps env req ts pf =
      ⟨⟨200, Body.jsonResult ScanResult.failure, none⟩,
        debugFiles env ts pf (images_to_scan caps image)⟩ := by
  unfold scan_barcode
  rw [hbody]
  dsimp only
  rw [himg]
  dsimp only
  rw [hb64]
  dsimp only
  rw [hdec]
  dsimp only
  rw [hloop]
  dsimp only
  cases b.redirect <;> rfl

/-- Reduction lemma: no redirect requested — whatever the scan result,
the handler answers 200 with the result as JSON body. -/
theorem scan_barcode_noredirect_ok (caps : Caps) (env : Env) (req : Req) (ts : Str) (pf : Bool)
    (b : ScanBody) (s : Str) (bytes : List Nat) (image : Image) (result : ScanResult)
    (hbody : req.body = some b) (himg : b.image = some s) (hred : b.redirect = false)
    (hb64 : b64decode (extractPayload s) = Except.ok bytes)
    (hdec : caps.imdecode bytes = some image)
    (hloop : scanLoop caps ScanResult.failure ((images_to_scan caps image).drop 1) =
      Except.ok result) :
    scan_barcode caps env req ts pf =
      ⟨⟨200, Body.jsonResult result, none⟩,
        debugFiles env ts pf (images_to_scan caps image)⟩ := by
  unfold scan_barcode
  rw [hbody]
  dsimp only
  rw [himg]
  dsimp only
  rw [hb64]
  dsimp only
  rw [hdec]
  dsimp only
  rw [hloop]
  dsimp only
  rw [hred]

/-- Step lemma for the decode loop: a variant with no detected symbol is
skipped and the loop continues. -/
theorem scanLoop_cons_empty (caps : Caps) (acc : ScanResult) (label : Str) (img : Image)
    (rest : List (Str × Image)) (h : caps.pyzbarDecode img = []) :
    scanLoop caps acc ((label, img) :: rest) = scanLoop caps ScanResult.failure rest := by
  have hd : decode_barcode caps img = Except.ok ScanResult.failure := by
    unfold decode_barcode
    rw [h]
  conv_lhs => unfold scanLoop
  rw [hd]

/-- Step lemma for the decode loop: the first variant with at least one
symbol ends the loop with the first symbol's payload and type, provided
the payload decodes as UTF-8. -/
theorem scanLoop_cons_hit (caps : Caps) (acc : ScanResult) (label : Str) (img : Image)
    (rest : List (Str × Image)) (sym : Barcode) (syms : List Barcode) (d : Str)
    (h : caps.pyzbarDecode img = sym :: syms) (hd : utf8Decode sym.data = Except.ok d) :
    scanLoop caps acc ((label, img) :: rest) = Except.ok (ScanResult.success d sym.type) := by
  have hdb : decode_barcode caps img = Except.ok (ScanResult.success d sym.type) := by
    unfold decode_barcode
    rw [h]
    dsimp only
    rw [hd]
  conv_lhs => unfold scanLoop
  rw [hdb]

/-- Step lemma for the decode loop: a first symbol whose payload is not
valid UTF-8 makes the loop raise with the decode error. -/
theorem scanLoop_cons_raise (caps : Caps) (acc : ScanResult) (label : Str) (img : Image)
    (rest : List (Str × Image)) (sym : Barcode) (syms : List Barcode) (m : Str)
    (h : caps.pyzbarDecode img = sym :: syms) (hd : utf8Decode sym.data = Except.error m) :
    scanLoop caps acc ((label, img) :: rest) = Except.error m := by
  have hdb : decode_barcode caps img = Except.error m := by
    unfold decode_barcode
    rw [h]
    dsimp only
    rw [hd]
  conv_lhs => unfold scanLoop
  rw [hdb]

/-- The list of variants actually passed to the decode loop
(`images_to_scan[1:]`): gray, blurred, adaptive-threshold, sharpened, in
that order — the original image is not in it. -/
theorem images_to_scan_drop1 (caps : Caps) (image : Image) :
    (images_to_scan caps image).drop 1 =
      [(("gray").toList, caps.cvtColor image),
       (("blurred").toList, caps.gaussianBlur (caps.cvtColor image)),
       (("adaptive_thresh").toList,
         caps.adaptiveThreshold (caps.gaussianBlur (caps.cvtColor image))),
       (("sharpened").toList, caps.filter2D (caps.cvtColor image))] := rfl

/-- Splitting a string that does not contain the separator yields a
single segment. -/
theorem splitAux_no_sep (sep : Char) (s : Str) (cur : Str) (h : sep ∉ s) :
    splitAux sep s cur = [cur.reverse ++ s] := by
  induction s generalizing cur with
  | nil => simp [splitAux]
  | cons c rest ih =>
    have hc : ¬(c = sep) := by
      intro hcs
      exact h (hcs ▸ List.mem_cons_self c rest)
    have hr : sep ∉ rest := fun hm => h (List.mem_cons_of_mem _ hm)
    simp [splitAux, hc, ih _ hr]

/-- Splitting at the first separator: a separator-free header becomes the
first segment and splitting continues on the remainder. -/
theorem splitAux_sep_split (sep : Char) (hdr rest cur : Str) (h : sep ∉ hdr) :
    splitAux sep (hdr ++ sep :: rest) cur = (cur.reverse ++ hdr) :: splitAux sep rest [] := by
  induction hdr generalizing cur with
  | nil => simp [splitAux]
  | cons c hd ih =>
    have hc : ¬(c = sep) := by
      intro hcs
      exact h (hcs ▸ List.mem_cons_self c hd)
    have hh : sep ∉ hd := fun hm => h (List.mem_cons_of_mem _ hm)
    simp [splitAux, hc, ih _ hh]

/-- A comma-free header followed by a comma and a comma-free payload is
stripped down to exactly the payload. -/
theorem extractPayload_header (hdr payload : Str) (hh : ',' ∉ hdr) (hp : ',' ∉ payload) :
    extractPayload (hdr ++ ',' :: payload) = payload := by
  unfold extractPayload
  have hm : ',' ∈ hdr ++ ',' :: payload := by simp
  rw [if_pos hm]
  unfold pySplit
  rw [splitAux_sep_split ',' hdr payload [] hh, splitAux_no_sep ',' payload [] hp]
  rfl

/-- A comma-free field value is used as the payload unchanged. -/
theorem extractPayload_nocomma (s : Str) (h : ',' ∉ s) : extractPayload s = s := by
  unfold extractPayload
  rw [if_neg h]

/-- C1 (counterexample): the request whose `image` field is the malformed
base64 payload `a` is answered with HTTP 500 carrying the
`binascii.Error` message — not with the HTTP 400 the claim requires for
every malformed-base64 payload. -/
theorem b64_raise_gives_500_cex :
    (scan_barcode idCaps ⟨none, none⟩
        ⟨some ⟨some (("a").toList), false⟩, ("http").toList, ("h").toList⟩ [] false).response =
      ⟨500, Body.jsonError (b64MsgInvalid 1), none⟩ ∧
    (scan_barcode idCaps ⟨none, none⟩
        ⟨some ⟨some (("a").toList), false⟩, ("http").toList, ("h").toList⟩ [] false).response.status
      ≠ 400 := by decide

/-- C1 (amended): bytes that base64-decode but are not a decodable raster
image yield HTTP 400 with a descriptive message; but an `image` payload
on which `base64.b64decode` itself raises is answered with HTTP 500
carrying the exception message, not 400. -/
theorem decode_failure_statuses (caps : Caps) (env : Env) (req : Req) (ts : Str) (pf : Bool)
    (b : ScanBody) (s : Str) (hbody : req.body = some b) (himg : b.image = some s) :
    (∀ m, b64decode (extractPayload s) = Except.error m →
      (scan_barcode caps env req ts pf).response = ⟨500, Body.jsonError m, none⟩) ∧
    (∀ bytes, b64decode (extractPayload s) = Except.ok bytes → caps.imdecode bytes = none →
      (scan_barcode caps env req ts pf).response =
        ⟨400, Body.jsonError invalidImageMsg, none⟩) := by
  constructor
  · intro m hm
    rw [scan_barcode_b64_error caps env req ts pf b s m hbody himg hm]
  · intro bytes hb hn
    rw [scan_barcode_imdecode_none caps env req ts pf b s bytes hbody himg hb hn]

/-- C1 (witness): the amended theorem applied to the malformed payload
`a` under concrete capabilities. -/
theorem decode_failure_statuses_witness :
    (scan_barcode idCaps ⟨none, none⟩
        ⟨some ⟨some (("a").toList), false⟩, ("http").toList, ("h").toList⟩ [] false).response =
      ⟨500, Body.jsonError (b64MsgInvalid 1), none⟩ :=
  (decode_failure_statuses idCaps ⟨none, none⟩
      ⟨some ⟨some (("a").toList), false⟩, ("http").toList, ("h").toList⟩ [] false
      ⟨some (("a").toList), false⟩ (("a").toList) rfl rfl).1 (b64MsgInvalid 1) (by decide)

/-- C2 (counterexample): for the field value
`data:image/png;base64,QQ==,IGNORED` the code does not treat the entire
remainder after the first comma (`QQ==,IGNORED`) as the payload — it
takes only the segment between the first and second commas — and
submitting the value with its data-URL header does not decode
identically to submitting the bare remainder alone. -/
theorem comma_split_cex :
    extractPayload (("data:image/png;base64,QQ==,IGNORED").toList) ≠
      ("QQ==,IGNORED").toList ∧
    scan_barcode capsDecodeA ⟨none, none⟩
        ⟨some ⟨some (("data:image/png;base64,QQ==,IGNORED").toList), false⟩,
          ("http").toList, ("h").toList⟩ [] false ≠
      scan_barcode capsDecodeA ⟨none, none⟩
        ⟨some ⟨some (("QQ==,IGNORED").toList), false⟩, ("http").toList, ("h").toList⟩ []
        false := by decide

/-- C2 (amended): for a field value containing a comma, the payload is
the segment between the first and the second comma (`split(',')[1]`), so
text before the first comma and from the second comma on is discarded;
consequently a value made of a comma-free data-URL header, a comma, and
a comma-free payload is handled identically to the bare payload alone. -/
theorem dataurl_strip_amended (caps : Caps) (env : Env) (hdr payload scheme host ts : Str)
    (red pf : Bool) (hh : ',' ∉ hdr) (hp : ',' ∉ payload) :
    extractPayload (hdr ++ ',' :: payload) = payload ∧
    scan_barcode caps env ⟨some ⟨some (hdr ++ ',' :: payload), red⟩, scheme, host⟩ ts pf =
      scan_barcode caps env ⟨some ⟨some payload, red⟩, scheme, host⟩ ts pf := by
  have h1 := extractPayload_header hdr payload hh hp
  have h2 := extractPayload_nocomma payload hp
  refine ⟨h1, ?_⟩
  unfold scan_barcode
  dsimp only
  rw [h1, h2]

/-- C2 (witness): the amended theorem applied to the header
`data:image/png;base64` and the payload `QQ==`. -/
theorem dataurl_strip_amended_witness :
    extractPayload ((("data:image/png;base64").toList) ++ ',' :: (("QQ==").toList)) =
      ("QQ==").toList ∧
    scan_barcode capsDecodeA ⟨none, none⟩
        ⟨some ⟨some ((("data:image/png;base64").toList) ++ ',' :: (("QQ==").toList)), false⟩,
          ("http").toList, ("h").toList⟩ [] false =
      scan_barcode capsDecodeA ⟨none, none⟩
        ⟨some ⟨some (("QQ==").toList), false⟩, ("http").toList, ("h").toList⟩ [] false :=
  dataurl_strip_amended capsDecodeA ⟨none, none⟩ (("data:image/png;base64").toList)
    (("QQ==").toList) (("http").toList) (("h").toList) [] false false
    (by decide) (by decide)

/-- C5: a request with no JSON object body, or whose body lacks the
`image` key, is answered 400 with the `error` key immediately — the
response and side effects are the same for every capability set, debug
configuration and timestamp, so no base64 or raster decode can have been
attempted, and no file is written. -/
theorem missing_image_400 (caps : Caps) (env : Env) (scheme host ts : Str) (pf red : Bool) :
    scan_barcode caps env ⟨none, scheme, host⟩ ts pf =
      ⟨⟨400, Body.jsonError noImageMsg, none⟩, []⟩ ∧
    scan_barcode caps env ⟨some ⟨none, red⟩, scheme, host⟩ ts pf =
      ⟨⟨400, Body.jsonError noImageMsg, none⟩, []⟩ :=
  ⟨rfl, rfl⟩

/-- C3: the decode loop runs over exactly the four non-original variants
gray, blurred, adaptive-threshold, sharpened in that fixed order; the
first variant with at least one detected symbol supplies the result (the
first returned symbol's payload and type) and ends the loop, and when no
variant yields a symbol the result is `success: false` — whatever the
decoder would say about the original color image, which is never passed
to it. -/
theorem variant_order_first_match (caps : Caps) (image : Image) :
    ((images_to_scan caps image).drop 1 =
      [(("gray").toList, caps.cvtColor image),
       (("blurred").toList, caps.gaussianBlur (caps.cvtColor image)),
       (("adaptive_thresh").toList,
         caps.adaptiveThreshold (caps.gaussianBlur (caps.cvtColor image))),
       (("sharpened").toList, caps.filter2D (caps.cvtColor image))]) ∧
    (∀ sym syms d, caps.pyzbarDecode (caps.cvtColor image) = sym :: syms →
      utf8Decode sym.data = Except.ok d →
      scanLoop caps ScanResult.failure ((images_to_scan caps image).drop 1) =
        Except.ok (ScanResult.success d sym.type)) ∧
    (∀ sym syms d, caps.pyzbarDecode (caps.cvtColor image) = [] →
      caps.pyzbarDecode (caps.gaussianBlur (caps.cvtColor image)) = sym :: syms →
      utf8Decode sym.data = Except.ok d →
      scanLoop caps ScanResult.failure ((images_to_scan caps image).drop 1) =
        Except.ok (ScanResult.success d sym.type)) ∧
    (∀ sym syms d, caps.pyzbarDecode (caps.cvtColor image) = [] →
      caps.pyzbarDecode (caps.gaussianBlur (caps.cvtColor image)) = [] →
      caps.pyzbarDecode (caps.adaptiveThreshold (caps.gaussianBlur (caps.cvtColor image))) =
        sym :: syms →
      utf8Decode sym.data = Except.ok d →
      scanLoop caps ScanResult.failure ((images_to_scan caps image).drop 1) =
        Except.ok (ScanResult.success d sym.type)) ∧
    (∀ sym syms d, caps.pyzbarDecode (caps.cvtColor image) = [] →
      caps.pyzbarDecode (caps.gaussianBlur (caps.cvtColor image)) = [] →
      caps.pyzbarDecode (caps.adaptiveThreshold (caps.gaussianBlur (caps.cvtColor image))) = [] →
      caps.pyzbarDecode (caps.filter2D (caps.cvtColor image)) = sym :: syms →
      utf8Decode sym.data = Except.ok d →
      scanLoop caps ScanResult.failure ((images_to_scan caps image).drop 1) =
        Except.ok (ScanResult.success d sym.type)) ∧
    (caps.pyzbarDecode (caps.cvtColor image) = [] →
      caps.pyzbarDecode (caps.gaussianBlur (caps.cvtColor image)) = [] →
      caps.pyzbarDecode (caps.adaptiveThreshold (caps.gaussianBlur (caps.cvtColor image))) = [] →
      caps.pyzbarDecode (caps.filter2D (caps.cvtColor image)) = [] →
      scanLoop caps ScanResult.failure ((images_to_scan caps image).drop 1) =
        Except.ok ScanResult.failure) := by
  refine ⟨images_to_scan_drop1 caps image, ?_, ?_, ?_, ?_, ?_⟩
  · intro sym syms d h hd
    rw [images_to_scan_drop1]
    exact scanLoop_cons_hit caps ScanResult.failure _ _ _ sym syms d h hd
  · intro sym syms d h0 h hd
    rw [images_to_scan_drop1, scanLoop_cons_empty caps ScanResult.failure _ _ _ h0]
    exact scanLoop_cons_hit caps ScanResult.failure _ _ _ sym syms d h hd
  · intro sym syms d h0 h1 h hd
    rw [images_to_scan_drop1, scanLoop_cons_empty caps ScanResult.failure _ _ _ h0,
      scanLoop_cons_empty caps ScanResult.failure _ _ _ h1]
    exact scanLoop_cons_hit caps ScanResult.failure _ _ _ sym syms d h hd
  · intro sym syms d h0 h1 h2 h hd
    rw [images_to_scan_drop1, scanLoop_cons_empty caps ScanResult.failure _ _ _ h0,
      scanLoop_cons_empty caps ScanResult.failure _ _ _ h1,
      scanLoop_cons_empty caps ScanResult.failure _ _ _ h2]
    exact scanLoop_cons_hit caps ScanResult.failure _ _ _ sym syms d h hd
  · intro h0 h1 h2 h3
    rw [images_to_scan_drop1, scanLoop_cons_empty caps ScanResult.failure _ _ _ h0,
      scanLoop_cons_empty caps ScanResult.failure _ _ _ h1,
      scanLoop_cons_empty caps ScanResult.failure _ _ _ h2,
      scanLoop_cons_empty caps ScanResult.failure _ _ _ h3]
    rfl

/-- C3 (witness): under concrete capabilities where the gray variant
carries a CODE128 symbol with payload byte 66, the loop stops there with
payload `B`. -/
theorem variant_order_first_match_witness :
    scanLoop capsDecodeA ScanResult.failure ((images_to_scan capsDecodeA 0).drop 1) =
      Except.ok (ScanResult.success (("B").toList) (("CODE128").toList)) :=
  (variant_order_first_match capsDecodeA 0).2.1 ⟨[66], ("CODE128").toList⟩ [] (("B").toList)
    rfl (by decide)

/-- C4: with `redirect` true, a successful decode is answered 302 with
empty body and a `Location` equal to the configured template (default
`http://localhost/search/` followed by the code placeholder) after the
code, protocol and host substitutions; with `redirect` true and a failed
decode, the handler falls back to the plain 200 JSON `success: false`
response with no `Location`. -/
theorem redirect_formatter_spec (caps : Caps) (env : Env) (req : Req) (ts : Str) (pf : Bool)
    (b : ScanBody) (s : Str) (bytes : List Nat) (image : Image)
    (hbody : req.body = some b) (himg : b.image = some s) (hred : b.redirect = true)
    (hb64 : b64decode (extractPayload s) = Except.ok bytes)
    (hdec : caps.imdecode bytes = some image) :
    (∀ d t, scanLoop caps ScanResult.failure ((images_to_scan caps image).drop 1) =
        Except.ok (ScanResult.success d t) →
      (scan_barcode caps env req ts pf).response =
        ⟨302, Body.empty,
          some (pyReplace hostPat req.host
            (pyReplace protocolPat req.scheme
              (pyReplace codePat d (env.redirectURL.getD defaultRedirectTemplate))))⟩) ∧
    (scanLoop caps ScanResult.failure ((images_to_scan caps image).drop 1) =
        Except.ok ScanResult.failure →
      (scan_barcode caps env req ts pf).response =
        ⟨200, Body.jsonResult ScanResult.failure, none⟩) := by
  constructor
  · intro d t hloop
    rw [scan_barcode_redirect_success caps env req ts pf b s d t bytes image
      hbody himg hred hb64 hdec hloop]
  · intro hloop
    rw [scan_barcode_ok_failure caps env req ts pf b s bytes image hbody himg hb64 hdec hloop]

/-- C4 (witness): a concrete successful redirect run with the default
template produces the 302 response with `Location`
`http://localhost/search/B`. -/
theorem redirect_formatter_spec_witness :
    (scan_barcode capsDecodeA ⟨none, none⟩
        ⟨some ⟨some (("QQ==").toList), true⟩, ("http").toList, ("h").toList⟩ [] false).response =
      ⟨302, Body.empty, some (("http://localhost/search/B").toList)⟩ :=
  (redirect_formatter_spec capsDecodeA ⟨none, none⟩
      ⟨some ⟨some (("QQ==").toList), true⟩, ("http").toList, ("h").toList⟩ [] false
      ⟨some (("QQ==").toList), true⟩ (("QQ==").toList) [65] 1
      rfl rfl rfl (by decide) (by decide)).1 (("B").toList) (("CODE128").toList) (by decide)

/-- C6: the client-facing response is unchanged whether the debug
persistence fails, succeeds, or is disabled altogether: only the set of
files on disk differs. -/
theorem persist_failure_invisible (caps : Caps) (env : Env) (req : Req) (ts : Str) (pf : Bool) :
    (scan_barcode caps env req ts pf).response = (scan_barcode caps env req ts false).response ∧
    (scan_barcode caps env req ts pf).response =
      (scan_barcode caps ⟨env.redirectURL, none⟩ req ts pf).response :=
  ⟨scan_barcode_response_congr caps env env req ts ts pf false rfl,
   scan_barcode_response_congr caps env ⟨env.redirectURL, none⟩ req ts ts pf pf rfl⟩

/-- C7 (counterexample): the handler reads `REDIRECT_URL` through
`os.getenv` while handling the request, so two runs of the same request
whose request-time environments disagree produce different responses —
whatever the environment was at process startup. -/
theorem env_request_time_cex :
    scan_barcode capsDecodeA ⟨some (("http://a/\x7bcode\x7d").toList), none⟩
        ⟨some ⟨some (("QQ==").toList), true⟩, ("http").toList, ("h").toList⟩ [] false ≠
      scan_barcode capsDecodeA ⟨some (("http://b/\x7bcode\x7d").toList), none⟩
        ⟨some ⟨some (("QQ==").toList), true⟩, ("http").toList, ("h").toList⟩ [] false := by
  decide

/-- C7 (amended): `REDIRECT_URL` and `IMAGES_LOCATION_COPY` are read from
the environment at request-handling time; two runs of the handler on the
same request produce identical responses whenever their request-time
`REDIRECT_URL` values agree — `IMAGES_LOCATION_COPY`, the persistence
outcome and the timestamp never influence the response. -/
theorem response_determined_by_request_env (caps : Caps) (env1 env2 : Env) (req : Req)
    (ts1 ts2 : Str) (pf1 pf2 : Bool) (h : env1.redirectURL = env2.redirectURL) :
    (scan_barcode caps env1 req ts1 pf1).response =
      (scan_barcode caps env2 req ts2 pf2).response :=
  scan_barcode_response_congr caps env1 env2 req ts1 ts2 pf1 pf2 h

/-- C7 (witness): the amended theorem applied to two environments that
agree on `REDIRECT_URL` but differ on `IMAGES_LOCATION_COPY`. -/
theorem response_determined_by_request_env_witness :
    (scan_barcode idCaps ⟨none, some (("d").toList)⟩ ⟨none, [], []⟩ [] false).response =
      (scan_barcode idCaps ⟨none, none⟩ ⟨none, [], []⟩ [] true).response :=
  response_determined_by_request_env idCaps ⟨none, some (("d").toList)⟩ ⟨none, none⟩
    ⟨none, [], []⟩ [] [] false true rfl

/-- C8: the scan pipeline is a pure function of the capability set and
the input bytes, so running it twice on the same bytes yields the same
`ScanResult`; across two handler runs of the same request, the inputs
that can differ between runs — the timestamp and the persistence
outcome — leave the response identical. -/
theorem scan_idempotent (caps : Caps) (bytes : List Nat) (env : Env) (req : Req)
    (ts1 ts2 : Str) (pf1 pf2 : Bool) :
    scan_result_of caps bytes = scan_result_of caps bytes ∧
    (scan_barcode caps env req ts1 pf1).response = (scan_barcode caps env req ts2 pf2).response :=
  ⟨rfl, scan_barcode_response_congr caps env env req ts1 ts2 pf1 pf2 rfl⟩

/-- C9: the `Location` value is built by three sequential textual
replacements, code then protocol then host, with no URL-encoding — so
when the decoded payload itself contains the literal host placeholder,
that occurrence is substituted with the request's host as well, as the
concrete second conjunct shows for payload `A` + host placeholder + `B`
under the default template. -/
theorem redirect_substitution_order (caps : Caps) (env : Env) (req : Req) (ts : Str)
    (pf : Bool) (b : ScanBody) (s d t tmpl : Str) (bytes : List Nat) (image : Image)
    (hbody : req.body = some b) (himg : b.image = some s) (hred : b.redirect = true)
    (hb64 : b64decode (extractPayload s) = Except.ok bytes)
    (hdec : caps.imdecode bytes = some image)
    (hloop : scanLoop caps ScanResult.failure ((images_to_scan caps image).drop 1) =
      Except.ok (ScanResult.success d t))
    (htmpl : env.redirectURL = some tmpl) :
    (scan_barcode caps env req ts pf).response.location =
      some (pyReplace hostPat req.host
        (pyReplace protocolPat req.scheme (pyReplace codePat d tmpl))) ∧
    pyReplace hostPat (("h.example").toList)
        (pyReplace protocolPat (("https").toList)
          (pyReplace codePat (("A\x7bhost\x7dB").toList) defaultRedirectTemplate)) =
      ("http://localhost/search/Ah.exampleB").toList := by
  constructor
  · rw [scan_barcode_redirect_success caps env req ts pf b s d t bytes image
      hbody himg hred hb64 hdec hloop]
    rw [htmpl]
    rfl
  · decide

/-- C9 (witness): the substitution-order theorem applied to a concrete
successful redirect run with the default template as the configured
`REDIRECT_URL`. -/
theorem redirect_substitution_order_witness :
    (scan_barcode capsDecodeA ⟨some defaultRedirectTemplate, none⟩
        ⟨some ⟨some (("QQ==").toList), true⟩, ("http").toList, ("h").toList⟩ [] false).response.location =
      some (("http://localhost/search/B").toList) ∧
    pyReplace hostPat (("h.example").toList)
        (pyReplace protocolPat (("https").toList)
          (pyReplace codePat (("A\x7bhost\x7dB").toList) defaultRedirectTemplate)) =
      ("http://localhost/search/Ah.exampleB").toList :=
  redirect_substitution_order capsDecodeA ⟨some defaultRedirectTemplate, none⟩
    ⟨some ⟨some (("QQ==").toList), true⟩, ("http").toList, ("h").toList⟩ [] false
    ⟨some (("QQ==").toList), true⟩ (("QQ==").toList) (("B").toList) (("CODE128").toList)
    defaultRedirectTemplate [65] 1 rfl rfl rfl (by decide) (by decide) (by decide) rfl

/-- C10: when the first symbol found by the first variant that detects
anything has payload bytes that are not valid UTF-8, the UTF-8 decode
raises, the exception escapes to the outer handler, and the request is
answered 500 with the exception message as the `error` field — not 400
and not a 200 `success: false` body. -/
theorem non_utf8_payload_500 (caps : Caps) (env : Env) (req : Req) (ts : Str) (pf : Bool)
    (b : ScanBody) (s m : Str) (bytes : List Nat) (image : Image)
    (hbody : req.body = some b) (himg : b.image = some s)
    (hb64 : b64decode (extractPayload s) = Except.ok bytes)
    (hdec : caps.imdecode bytes = some image) :
    (∀ sym syms, caps.pyzbarDecode (caps.cvtColor image) = sym :: syms →
      utf8Decode sym.data = Except.error m →
      (scan_barcode caps env req ts pf).response = ⟨500, Body.jsonError m, none⟩) ∧
    (∀ sym syms, caps.pyzbarDecode (caps.cvtColor image) = [] →
      caps.pyzbarDecode (caps.gaussianBlur (caps.cvtColor image)) = sym :: syms →
      utf8Decode sym.data = Except.error m →
      (scan_barcode caps env req ts pf).response = ⟨500, Body.jsonError m, none⟩) ∧
    (∀ sym syms, caps.pyzbarDecode (caps.cvtColor image) = [] →
      caps.pyzbarDecode (caps.gaussianBlur (caps.cvtColor image)) = [] →
      caps.pyzbarDecode (caps.adaptiveThreshold (caps.gaussianBlur (caps.cvtColor image))) =
        sym :: syms →
      utf8Decode sym.data = Except.error m →
      (scan_barcode caps env req ts pf).response = ⟨500, Body.jsonError m, none⟩) ∧
    (∀ sym syms, caps.pyzbarDecode (caps.cvtColor image) = [] →
      caps.pyzbarDecode (caps.gaussianBlur (caps.cvtColor image)) = [] →
      caps.pyzbarDecode (caps.adaptiveThreshold (caps.gaussianBlur (caps.cvtColor image))) = [] →
      caps.pyzbarDecode (caps.filter2D (caps.cvtColor image)) = sym :: syms →
      utf8Decode sym.data = Except.error m →
      (scan_barcode caps env req ts pf).response = ⟨500, Body.jsonError m, none⟩) := by
  refine ⟨?_, ?_, ?_, ?_⟩
  · intro sym syms h hd
    have hloop : scanLoop caps ScanResult.failure ((images_to_scan caps image).drop 1) =
        Except.error m := by
      rw [images_to_scan_drop1]
      exact scanLoop_cons_raise caps ScanResult.failure _ _ _ sym syms m h hd
    rw [scan_barcode_loop_error caps env req ts pf b s m bytes image
      hbody himg hb64 hdec hloop]
  · intro sym syms h0 h hd
    have hloop : scanLoop caps ScanResult.failure ((images_to_scan caps image).drop 1) =
        Except.error m := by
      rw [images_to_scan_drop1, scanLoop_cons_empty caps ScanResult.failure _ _ _ h0]
      exact scanLoop_cons_raise caps ScanResult.failure _ _ _ sym syms m h hd
    rw [scan_barcode_loop_error caps env req ts pf b s m bytes image
      hbody himg hb64 hdec hloop]
  · intro sym syms h0 h1 h hd
    have hloop : scanLoop caps ScanResult.failure ((images_to_scan caps image).drop 1) =
        Except.error m := by
      rw [images_to_scan_drop1, scanLoop_cons_empty caps ScanResult.failure _ _ _ h0,
        scanLoop_cons_empty caps ScanResult.failure _ _ _ h1]
      exact scanLoop_cons_raise caps ScanResult.failure _ _ _ sym syms m h hd
    rw [scan_barcode_loop_error caps env req ts pf b s m bytes image
      hbody himg hb64 hdec hloop]
  · intro sym syms h0 h1 h2 h hd
    have hloop : scanLoop caps ScanResult.failure ((images_to_scan caps image).drop 1) =
        Except.error m := by
      rw [images_to_scan_drop1, scanLoop_cons_empty caps ScanResult.failure _ _ _ h0,
        scanLoop_cons_empty caps ScanResult.failure _ _ _ h1,
        scanLoop_cons_empty caps ScanResult.failure _ _ _ h2]
      exact scanLoop_cons_raise caps ScanResult.failure _ _ _ sym syms m h hd
    rw [scan_barcode_loop_error caps env req ts pf b s m bytes image
      hbody himg hb64 hdec hloop]

/-- C10 (witness): under concrete capabilities whose only symbol carries
the non-UTF-8 payload byte 255, the request is answered 500 with the
`UnicodeDecodeError` message. -/
theorem non_utf8_payload_500_witness :
    (scan_barcode capsBadUtf8 ⟨none, none⟩
        ⟨some ⟨some (("QQ==").toList), false⟩, ("http").toList, ("h").toList⟩ [] false).response =
      ⟨500, Body.jsonError utf8Msg, none⟩ :=
  (non_utf8_payload_500 capsBadUtf8 ⟨none, none⟩
      ⟨some ⟨some (("QQ==").toList), false⟩, ("http").toList, ("h").toList⟩ [] false
      ⟨some (("QQ==").toList), false⟩ (("QQ==").toList) utf8Msg [65] 1
      rfl rfl (by decide) (by decide)).1 ⟨[255], ("CODE128").toList⟩ [] rfl (by decide)
